import Mathlib

/-!
Verification of the SQL-via-Alchemy tutorial scripts.

The development shallowly embeds the three Python scripts of the repository
and the database semantics they rely on (scoped connections, commit,
rollback-on-release, the in-memory SQLite store).  Pure computations
(version parsing, URL construction) are translated directly from the
source; the store semantics follow the spec's data model (scoped
connection, commit, durable handle) since they live in the external
toolkit, not in this repository.
-/

namespace SqlaIntro

/-- Error taxonomy of the spec: the module-level version error (raised as an
ImportError in the source and called VersionError by the spec), the ValueError
raised by a failing Python int() conversion, and the statement error of the
toolkit (malformed statement or missing table). -/
inductive PyErr where
  | importError
  | valueError
  | statementError
  deriving DecidableEq, Repr

/-- Splits a character list at every dot, mirroring Python
str.split(".") : an empty input gives one empty component, and every dot
separates two (possibly empty) components. -/
def splitOnDot : List Char → List (List Char)
  | [] => [[]]
  | c :: cs =>
    if c = '.' then [] :: splitOnDot cs
    else
      match splitOnDot cs with
      | [] => [[c]]
      | g :: gs => (c :: g) :: gs

/-- A component accepted by Python int() on the argument space that occurs
here (version components carry no sign, whitespace or underscores): a
nonempty run of decimal digits. -/
def intOk (c : List Char) : Bool :=
  !c.isEmpty && c.all Char.isDigit

/-- Decimal value of a digit list, most significant first. -/
def digitsToNat (c : List Char) : Nat :=
  c.foldl (fun n d => 10 * n + (d.toNat - 48)) 0

/-- Python int() restricted to the version-component argument space: a
nonempty all-digit string converts, anything else raises ValueError. -/
def pyInt (c : List Char) : Except PyErr Nat :=
  if intOk c then .ok (digitsToNat c) else .error .valueError

/-- Converts every dot-component in order, stopping at the first ValueError,
as the generator inside tuple(...) does. -/
def parseComponents : List (List Char) → Except PyErr (List Nat)
  | [] => .ok []
  | c :: cs => do
    let n ← pyInt c
    let ns ← parseComponents cs
    pure (n :: ns)

/-- SQLALCHEMY_VERSION: tuple of int(item) for item in version.split("."). -/
def parseVersion (s : String) : Except PyErr (List Nat) :=
  parseComponents (splitOnDot s.data)

/-- Python tuple comparison, lexicographic with a strict prefix counting as
smaller. -/
def pyTupleLt : List Nat → List Nat → Bool
  | [], [] => false
  | [], _ :: _ => true
  | _ :: _, [] => false
  | a :: as, b :: bs => a < b || (a == b && pyTupleLt as bs)

/-- The minimum supported version tuple (2, 0, 0). -/
def minVersion : List Nat := [2, 0, 0]

/-- Module import: parse the version string, then raise the version error
when the parsed tuple is below the minimum supported one.  Both raises
happen at import time, before any definition of the module runs. -/
def moduleInit (s : String) : Except PyErr (List Nat) := do
  let v ← parseVersion s
  if pyTupleLt v minVersion then .error .importError else .ok v

theorem parseComponents_ok_of_all
    (l : List (List Char)) (h : ∀ c ∈ l, intOk c = true) :
    parseComponents l = .ok (l.map digitsToNat) := by
  induction l with
  | nil => rfl
  | cons c cs ih =>
    have hc : intOk c = true := h c (List.mem_cons_self c cs)
    have hcs : ∀ x ∈ cs, intOk x = true := fun x hx => h x (List.mem_cons_of_mem c hx)
    simp [parseComponents, pyInt, hc, ih hcs, Bind.bind, Except.bind, Pure.pure, Except.pure]

theorem parseComponents_err_of_bad
    (l : List (List Char)) (c : List Char) (hc : c ∈ l) (hbad : intOk c = false) :
    parseComponents l = .error PyErr.valueError := by
  induction l with
  | nil => cases hc
  | cons d ds ih =>
    rcases List.mem_cons.mp hc with h | h
    · subst h
      simp [parseComponents, pyInt, hbad, Bind.bind, Except.bind]
    · by_cases hd : intOk d = true
      · simp [parseComponents, pyInt, hd, ih h, Bind.bind, Except.bind]
      · have hd0 : intOk d = false := by
          cases hdv : intOk d
          · rfl
          · exact absurd hdv hd
        simp [parseComponents, pyInt, hd0, Bind.bind, Except.bind]

theorem moduleInit_err_of_parse_err (s : String) (e : PyErr)
    (h : parseVersion s = .error e) : moduleInit s = .error e := by
  simp [moduleInit, h, Bind.bind, Except.bind]

/-! ### The store model

The spec's data model: a durable database reached through a handle, scoped
connections whose uncommitted writes are rolled back on release, commit
making pending writes durable, and a begin-style scope that commits on
exit.  The tutorial only ever touches the Coords table, so a database
state is the optional content of that table.  Column values are modelled
as rationals: the scripts do no arithmetic on them, so values flow from
insert to select unchanged and exact equality is the faithful model of
the roundtrip. -/

/-- One row of the Coords table. -/
structure Row where
  x : ℚ
  y : ℚ
  deriving DecidableEq, Repr

/-- A database state: the Coords table content when the table exists, in
rowid (insertion) order. -/
structure DB where
  coords : Option (List Row)
  deriving DecidableEq, Repr

/-- The state a fresh database starts in: no Coords table. -/
def DB.empty : DB := ⟨none⟩

/-- Executes the INSERT statement once against one parameter mapping:
appends the row, or raises the statement error when the table is absent. -/
def insertOne (db : DB) (r : Row) : Except PyErr DB :=
  match db.coords with
  | none => .error .statementError
  | some rs => .ok ⟨some (rs ++ [r])⟩

/-- Batch execute: the one statement is applied once per parameter mapping,
in list order. -/
def executeInsert (db : DB) : List Row → Except PyErr DB
  | [] => .ok db
  | p :: ps => do executeInsert (← insertOne db p) ps

/-- SELECT x, y FROM Coords: the rows in stored order, or the statement
error when the table is absent. -/
def selectCoords (db : DB) : Except PyErr (List Row) :=
  match db.coords with
  | none => .error .statementError
  | some rs => .ok rs

/-- The statements a connection scope issues, in order. -/
inductive SqlOp where
  | create
  | insert (ps : List Row)
  | select
  | commit
  deriving DecidableEq, Repr

/-- A live connection: the durable state as of the last commit, and the
pending state the connection's statements act on. -/
structure ConnState where
  durable : DB
  pending : DB
  deriving DecidableEq, Repr

/-- One statement against a live connection.  CREATE TABLE fails when the
table already exists; INSERT and SELECT fail when it does not; commit
publishes the pending state as durable. -/
def applyOp (s : ConnState) : SqlOp → Except PyErr ConnState
  | .create =>
    match s.pending.coords with
    | some _ => .error .statementError
    | none => .ok ⟨s.durable, ⟨some []⟩⟩
  | .insert ps => (executeInsert s.pending ps).map fun db => ⟨s.durable, db⟩
  | .select =>
    match s.pending.coords with
    | some _ => .ok s
    | none => .error .statementError
  | .commit => .ok ⟨s.pending, s.pending⟩

/-- Runs a list of statements on a live connection, stopping at the first
error. -/
def runOps (s : ConnState) : List SqlOp → Except PyErr ConnState
  | [] => .ok s
  | op :: ops => do runOps (← applyOp s op) ops

/-- engine.connect() scope: the pending state starts as a view of the
durable state, and on release only the durable state survives — whatever
was not committed is rolled back.  An error releases the connection
uncommitted and propagates. -/
def connectScope (db : DB) (ops : List SqlOp) : Except PyErr DB :=
  (runOps ⟨db, db⟩ ops).map ConnState.durable

/-- engine.begin() scope: like connect, but the transaction commits
automatically on successful exit, so the pending state becomes durable. -/
def beginScope (db : DB) (ops : List SqlOp) : Except PyErr DB :=
  (runOps ⟨db, db⟩ ops).map ConnState.pending

/-- The five literal parameter mappings of the first INSERT in
create_coords_table. -/
def coordsBatch : List Row :=
  [⟨0, 0⟩, ⟨1.2, 2.1⟩, ⟨-2.1, 4.2⟩, ⟨-5, -9⟩, ⟨9.9, -13.2⟩]

/-- The single parameter mapping inserted inside the engine.begin() scope. -/
def beginBatch : List Row := [⟨100, 200⟩]

/-- create_coords_table: one connect scope issuing CREATE TABLE, the
five-row batch INSERT and an explicit commit; one begin scope issuing the
one-row INSERT (auto-committed); then a read on a fresh connection,
returning the final durable state and the rows the read yields. -/
def create_coords_table (db : DB) : Except PyErr (DB × List Row) := do
  let db1 ← connectScope db [.create, .insert coordsBatch, .commit]
  let db2 ← beginScope db1 [.insert beginBatch]
  let rows ← selectCoords db2
  pure (db2, rows)

/-- The rows create_coords_table inserts, in insertion order: the committed
five-row batch followed by the auto-committed single row. -/
def sixRows : List Row := coordsBatch ++ beginBatch

/-- main of sqla_introduction.py, after the engine is created: hello_sql is
a pure read on a fresh scope, then create_coords_table; the run yields the
rows the final read prints. -/
def mainRun : Except PyErr (List Row) :=
  (create_coords_table DB.empty).map Prod.snd

/-- The whole script: module import runs the version check first; only
when it passes does main run and engine work begin. -/
def scriptRun (versionStr : String) : Except PyErr (List Row) := do
  let _ ← moduleInit versionStr
  mainRun

/-! ### Handles, the backing store and dispose

Modelled from the spec: a handle encapsulates how to reach a database;
for a file location the durable state lives in the backing store and
survives the handle, while for the in-memory location it lives only
inside the handle, so nothing it holds outlives dispose. -/

/-- The process-external backing store: file contents by location.  The
in-memory location never appears here. -/
structure Sys where
  files : List (String × DB)
  deriving DecidableEq, Repr

/-- Writes a durable database state to a file location. -/
def Sys.write (sys : Sys) (loc : String) (db : DB) : Sys :=
  ⟨(loc, db) :: sys.files.filter fun t => t.1 != loc⟩

/-- The database state a fresh handle for a location starts from: the
stored file content, or an empty database for the in-memory marker (each
new in-memory database starts blank). -/
def mkEngineDB (sys : Sys) (loc : String) : DB :=
  if loc = ":memory:" then DB.empty else (sys.files.lookup loc).getD DB.empty

/-- A connection scope opened on a handle: connect (roll back on release)
or begin (commit on successful release). -/
inductive Scope where
  | connect (ops : List SqlOp)
  | beginTx (ops : List SqlOp)
  deriving DecidableEq, Repr

/-- Runs one scope against the handle's current durable state. -/
def runScope (db : DB) : Scope → Except PyErr DB
  | .connect ops => connectScope db ops
  | .beginTx ops => beginScope db ops

/-- After a scope releases, the durable state of a file-backed handle is
reflected in the backing store; an in-memory handle touches no external
store. -/
def publish (loc : String) (sys : Sys) (db : DB) : Sys :=
  if loc = ":memory:" then sys else sys.write loc db

/-- Runs the scopes a handle serves during its lifetime, threading the
durable state and the backing store. -/
def sessionSteps (loc : String) : Sys → DB → List Scope → Except PyErr (Sys × DB)
  | sys, db, [] => .ok (sys, db)
  | sys, db, sc :: rest => do
    let db' ← runScope db sc
    sessionSteps loc (publish loc sys db') db' rest

/-- A full handle lifetime: create the engine, serve the scopes, then
dispose.  Dispose releases the handle's resources, so the state it held
is dropped and only the backing store survives. -/
def runSession (sys : Sys) (loc : String) (scopes : List Scope) : Except PyErr Sys :=
  (sessionSteps loc sys (mkEngineDB sys loc) scopes).map Prod.fst

/-- A handle as a process-wide resource: its location and whether its
connection pool is still active. -/
structure Engine where
  loc : String
  pool : List Nat
  active : Bool
  deriving DecidableEq, Repr

/-- Modelled from the spec: dispose releases the process-wide resources
tied to the handle — the pooled connections are closed and the handle is
left inactive. -/
def dispose (e : Engine) : Engine :=
  { e with pool := [], active := false }

/-! ### The connection URL (get_sqlite_engine) -/

/-- The dbfile argument of get_sqlite_engine: None, a string, or a
pathlib.Path built from a string. -/
inductive DbFile where
  | noneArg
  | strArg (s : String)
  | pathArg (p : String)
  deriving DecidableEq, Repr

/-- Modelled from CPython pathlib: rendering a Path built from the empty
string yields ".", otherwise the path text itself (no further
normalisation occurs for the inputs considered here). -/
def pathText (p : String) : String :=
  if p = "" then "." else p

/-- Python truthiness of the dbfile argument: None is falsy, a string is
falsy exactly when empty, and a Path object is always truthy (pathlib
defines no boolean conversion). -/
def pyTruthy : DbFile → Bool
  | .noneArg => false
  | .strArg s => !s.isEmpty
  | .pathArg _ => true

/-- str(dbfile) as evaluated in the truthy branch. -/
def pyStr : DbFile → String
  | .noneArg => "None"
  | .strArg s => s
  | .pathArg p => pathText p

/-- db_loc = str(dbfile) if dbfile else ":memory:". -/
def db_loc (dbfile : DbFile) : String :=
  if pyTruthy dbfile then pyStr dbfile else ":memory:"

/-- The connection string get_sqlite_engine builds:
dialect sqlite, driver aiosqlite, then the location. -/
def get_sqlite_engine_url (dbfile : DbFile) : String :=
  "sqlite+aiosqlite:///" ++ db_loc dbfile

/-! ### The Alembic revision (create users table) -/

/-- Column types used by the revision. -/
inductive ColType where
  | integer
  | unicode (n : Nat)
  deriving DecidableEq, Repr

/-- A typed column of a table definition. -/
structure Column where
  name : String
  ctype : ColType
  primary_key : Bool
  deriving DecidableEq, Repr

/-- A schema: the defined tables with their columns, in creation order. -/
abbrev Schema := List (String × List Column)

/-- The columns of the users table in the revision. -/
def usersColumns : List Column :=
  [⟨"id", .integer, true⟩, ⟨"full name", .unicode 100, false⟩]

/-- op.create_table: fails when a table of that name exists, else adds
exactly one table. -/
def create_table (s : Schema) (name : String) (cols : List Column) : Except PyErr Schema :=
  match List.lookup name s with
  | some _ => .error .statementError
  | none => .ok (s ++ [(name, cols)])

/-- op.drop_table: fails when no table of that name exists, else removes
the tables of that name. -/
def drop_table (s : Schema) (name : String) : Except PyErr Schema :=
  match List.lookup name s with
  | some _ => .ok (s.filter fun t => t.1 != name)
  | none => .error .statementError

/-- upgrade() of revision 27fc5c72440c. -/
def upgrade (s : Schema) : Except PyErr Schema :=
  create_table s "users" usersColumns

/-- downgrade() of revision 27fc5c72440c. -/
def downgrade (s : Schema) : Except PyErr Schema :=
  drop_table s "users"

/-! ### Supporting lemmas -/

theorem executeInsert_appends (rows ps : List Row) (db : DB)
    (h : db.coords = some rows) :
    executeInsert db ps = .ok ⟨some (rows ++ ps)⟩ := by
  induction ps generalizing rows db with
  | nil =>
    cases db with
    | mk c =>
      cases h
      simp [executeInsert]
  | cons p ps ih =>
    have h1 : insertOne db p = .ok ⟨some (rows ++ [p])⟩ := by
      simp [insertOne, h]
    calc executeInsert db (p :: ps)
        = executeInsert ⟨some (rows ++ [p])⟩ ps := by
          simp [executeInsert, h1, Bind.bind, Except.bind]
      _ = .ok ⟨some ((rows ++ [p]) ++ ps)⟩ := ih (rows ++ [p]) _ rfl
      _ = .ok ⟨some (rows ++ p :: ps)⟩ := by simp

theorem applyOp_durable (s s' : ConnState) (op : SqlOp)
    (hop : op ≠ SqlOp.commit) (h : applyOp s op = .ok s') :
    s'.durable = s.durable := by
  cases op with
  | create =>
    cases hc : s.pending.coords with
    | none => simp [applyOp, hc] at h; cases h; rfl
    | some rs => simp [applyOp, hc] at h
  | insert ps =>
    cases he : executeInsert s.pending ps with
    | error e => simp [applyOp, he, Except.map] at h
    | ok db => simp [applyOp, he, Except.map] at h; cases h; rfl
  | select =>
    cases hc : s.pending.coords with
    | none => simp [applyOp, hc] at h
    | some rs => simp [applyOp, hc] at h; cases h; rfl
  | commit => exact absurd rfl hop

theorem runOps_durable_of_no_commit (ops : List SqlOp) (s s' : ConnState)
    (hnc : SqlOp.commit ∉ ops) (h : runOps s ops = .ok s') :
    s'.durable = s.durable := by
  induction ops generalizing s with
  | nil =>
    simp [runOps] at h
    cases h
    rfl
  | cons op ops ih =>
    have hop : op ≠ SqlOp.commit := fun he => hnc (he ▸ List.mem_cons_self op ops)
    have hrest : SqlOp.commit ∉ ops := fun hm => hnc (List.mem_cons_of_mem op hm)
    cases happ : applyOp s op with
    | error e => simp [runOps, happ, Bind.bind, Except.bind] at h
    | ok s1 =>
      have h1 : runOps s1 ops = .ok s' := by
        simpa [runOps, happ, Bind.bind, Except.bind] using h
      calc s'.durable = s1.durable := ih s1 hrest h1
        _ = s.durable := applyOp_durable s s1 op hop happ

theorem sessionSteps_memory_sys (scopes : List Scope) (sys : Sys) (db : DB)
    (sys' : Sys) (db' : DB)
    (h : sessionSteps ":memory:" sys db scopes = .ok (sys', db')) :
    sys' = sys := by
  induction scopes generalizing sys db with
  | nil =>
    simp [sessionSteps] at h
    exact h.1.symm
  | cons sc rest ih =>
    cases hr : runScope db sc with
    | error e => simp [sessionSteps, hr, Bind.bind, Except.bind] at h
    | ok db1 =>
      have h1 : sessionSteps ":memory:" sys db1 rest = .ok (sys', db') := by
        simpa [sessionSteps, hr, Bind.bind, Except.bind, publish] using h
      exact ih sys db1 h1

theorem schema_filter_of_lookup_none (s : Schema)
    (h : List.lookup "users" s = none) :
    (s.filter fun t => t.1 != "users") = s := by
  induction s with
  | nil => rfl
  | cons kv rest ih =>
    cases kv with
    | mk k cols =>
      by_cases hk : ("users" : String) == k
      · simp [List.lookup, hk] at h
      · have h' : List.lookup "users" rest = none := by
          simpa [List.lookup, hk] using h
        have hkne : (k != "users") = true := by
          simp only [bne_iff_ne]
          intro hke
          exact hk (by simp [hke])
        simp [List.filter, hkne, ih h']

theorem schema_lookup_appended (s : Schema) (cols : List Column)
    (h : List.lookup "users" s = none) :
    List.lookup "users" (s ++ [("users", cols)]) = some cols := by
  induction s with
  | nil => simp [List.lookup]
  | cons kv rest ih =>
    cases kv with
    | mk k c =>
      by_cases hk : ("users" : String) == k
      · simp [List.lookup, hk] at h
      · have h' : List.lookup "users" rest = none := by
          simpa [List.lookup, hk] using h
        simpa [List.lookup, hk] using ih h'

/-! ### The claims -/

/-- C1: a version tuple strictly below the minimum supported (2, 0, 0) in
Python tuple order makes module import raise the version error (the spec's
VersionError, the source's ImportError) at import time, so the whole
script stops there and no engine work runs; a tuple at or above the
minimum raises no such error and the import yields the parsed version. -/
theorem version_check_gates_script (s : String) (v : List Nat)
    (h : parseVersion s = .ok v) :
    (pyTupleLt v minVersion = true →
      moduleInit s = .error PyErr.importError ∧
      scriptRun s = .error PyErr.importError) ∧
    (pyTupleLt v minVersion = false →
      moduleInit s = .ok v ∧ scriptRun s = mainRun) := by
  constructor
  · intro hlt
    have hm : moduleInit s = .error PyErr.importError := by
      simp [moduleInit, h, hlt, Bind.bind, Except.bind]
    exact ⟨hm, by simp [scriptRun, hm, Bind.bind, Except.bind]⟩
  · intro hge
    have hm : moduleInit s = .ok v := by
      simp [moduleInit, h, hge, Bind.bind, Except.bind]
    exact ⟨hm, by simp [scriptRun, hm, Bind.bind, Except.bind]⟩

/-- Witness for C1: version 1.4.52 is below the minimum and the script
raises the version error at import; version 2.0.23 is above and imports
cleanly. -/
theorem version_check_gates_script_witness :
    parseVersion "1.4.52" = .ok [1, 4, 52] ∧
    scriptRun "1.4.52" = .error PyErr.importError ∧
    parseVersion "2.0.23" = .ok [2, 0, 23] ∧
    moduleInit "2.0.23" = .ok [2, 0, 23] :=
  ⟨rfl,
   ((version_check_gates_script "1.4.52" [1, 4, 52] rfl).1 rfl).2,
   rfl,
   ((version_check_gates_script "2.0.23" [2, 0, 23] rfl).2 rfl).1⟩

/-- C2: on a fresh database, create_coords_table succeeds; the read on a
fresh connection at the end returns exactly six rows, in insertion order,
each (x, y) pair equal to its inserted literal values. -/
theorem coords_scenario_six_rows :
    create_coords_table DB.empty = .ok (⟨some sixRows⟩, sixRows) ∧
    sixRows.length = 6 ∧
    sixRows = [⟨0, 0⟩, ⟨1.2, 2.1⟩, ⟨-2.1, 4.2⟩, ⟨-5, -9⟩, ⟨9.9, -13.2⟩, ⟨100, 200⟩] :=
  ⟨rfl, rfl, rfl⟩

/-- C3: a batch of N parameter mappings against one INSERT statement is
applied once per mapping in list order: the table gains exactly N rows,
appended after the existing ones, and the new suffix is the mapping list
itself. -/
theorem batch_insert_appends_in_order (db : DB) (rows ps : List Row)
    (h : db.coords = some rows) :
    executeInsert db ps = .ok ⟨some (rows ++ ps)⟩ ∧
    (rows ++ ps).length = rows.length + ps.length ∧
    (rows ++ ps).drop rows.length = ps :=
  ⟨executeInsert_appends rows ps db h, by simp, by simp⟩

/-- Witness for C3: inserting a two-mapping batch into a one-row table
yields the two rows appended, in order. -/
theorem batch_insert_appends_in_order_witness :
    executeInsert ⟨some [⟨0, 0⟩]⟩ [⟨1, 2⟩, ⟨3, 4⟩]
      = .ok ⟨some [⟨0, 0⟩, ⟨1, 2⟩, ⟨3, 4⟩]⟩ :=
  (batch_insert_appends_in_order ⟨some [⟨0, 0⟩]⟩ [⟨0, 0⟩] [⟨1, 2⟩, ⟨3, 4⟩] rfl).1

/-- C4: a connect scope that never commits leaves the durable state
unchanged whether or not writes were issued: on release the durable state
equals the initial one and a fresh connection reads the same rows. -/
theorem uncommitted_writes_rolled_back (db : DB) (ops : List SqlOp) (db' : DB)
    (hnc : SqlOp.commit ∉ ops) (h : connectScope db ops = .ok db') :
    db' = db ∧ selectCoords db' = selectCoords db := by
  cases hr : runOps ⟨db, db⟩ ops with
  | error e => simp [connectScope, hr, Except.map] at h
  | ok s' =>
    have hdb : db' = s'.durable := by
      simp [connectScope, hr, Except.map] at h
      exact h.symm
    have : s'.durable = db := runOps_durable_of_no_commit ops ⟨db, db⟩ s' hnc hr
    subst hdb
    rw [this]
    exact ⟨rfl, rfl⟩

/-- Witness for C4: one uncommitted insert into an empty Coords table; the
scope releases with the durable state still the empty table. -/
theorem uncommitted_writes_rolled_back_witness :
    (⟨some []⟩ : DB) = ⟨some []⟩ ∧
    selectCoords ⟨some []⟩ = selectCoords (⟨some []⟩ : DB) :=
  uncommitted_writes_rolled_back ⟨some []⟩ [SqlOp.insert [⟨1, 1⟩]] ⟨some []⟩
    (by simp) rfl

/-- C5: the constructed connection string is the dialect+driver prefix
followed by the location: the given path when one is given, the in-memory
marker when none is. -/
theorem engine_url_format (s p : String) :
    (s ≠ "" → get_sqlite_engine_url (.strArg s) = "sqlite+aiosqlite:///" ++ s) ∧
    (p ≠ "" → get_sqlite_engine_url (.pathArg p) = "sqlite+aiosqlite:///" ++ p) ∧
    get_sqlite_engine_url .noneArg = "sqlite+aiosqlite:///:memory:" := by
  refine ⟨fun h => ?_, fun h => ?_, rfl⟩
  · have hne : s.isEmpty = false := by
      cases he : s.isEmpty
      · rfl
      · exact absurd ((String.isEmpty_iff s).mp he) h
    simp [get_sqlite_engine_url, db_loc, pyTruthy, pyStr, hne]
  · simp [get_sqlite_engine_url, db_loc, pyTruthy, pyStr, pathText, h]

/-- Witness for C5: a concrete file path produces the file URL and None
produces the in-memory URL. -/
theorem engine_url_format_witness :
    get_sqlite_engine_url (.strArg "base.db") = "sqlite+aiosqlite:///base.db" ∧
    get_sqlite_engine_url .noneArg = "sqlite+aiosqlite:///:memory:" :=
  ⟨(engine_url_format "base.db" "x").1 (by decide),
   (engine_url_format "base.db" "x").2.2⟩

/-- C6: a handle on the in-memory location never touches the backing
store: after any successful session the store is exactly as before, and a
fresh handle created after dispose starts from the empty database, so no
write — committed or not — survives the handle. -/
theorem memory_engine_no_durability (sys : Sys) (scopes : List Scope) (sys' : Sys)
    (h : runSession sys ":memory:" scopes = .ok sys') :
    sys' = sys ∧ mkEngineDB sys' ":memory:" = DB.empty := by
  cases hr : sessionSteps ":memory:" sys (mkEngineDB sys ":memory:") scopes with
  | error e => simp [runSession, hr, Except.map] at h
  | ok p =>
    have hs : sys' = p.1 := by
      simp [runSession, hr, Except.map] at h
      exact h.symm
    have : p.1 = sys := sessionSteps_memory_sys scopes sys _ p.1 p.2 (by rw [hr])
    subst hs
    rw [this]
    exact ⟨rfl, rfl⟩

/-- Witness for C6: the whole committed Coords workload run on an
in-memory handle over an empty backing store leaves the store empty. -/
theorem memory_engine_no_durability_witness :
    (⟨[]⟩ : Sys) = ⟨[]⟩ ∧ mkEngineDB ⟨[]⟩ ":memory:" = DB.empty :=
  memory_engine_no_durability ⟨[]⟩
    [Scope.connect [SqlOp.create, SqlOp.insert coordsBatch, SqlOp.commit]] ⟨[]⟩ rfl

/-- C7: on any schema without a users table, upgrade() adds exactly the
users table with columns id (integer, primary key) and full name
(unicode 100), and downgrade() after upgrade() restores the original
schema: downgrade composed with upgrade is the identity. -/
theorem migration_roundtrip (s : Schema) (h : List.lookup "users" s = none) :
    upgrade s = .ok (s ++ [("users", usersColumns)]) ∧
    (upgrade s >>= downgrade) = .ok s := by
  have hu : upgrade s = .ok (s ++ [("users", usersColumns)]) := by
    simp [upgrade, create_table, h]
  refine ⟨hu, ?_⟩
  rw [hu]
  have hl : List.lookup "users" (s ++ [("users", usersColumns)]) = some usersColumns :=
    schema_lookup_appended s usersColumns h
  have hfil : ((s ++ [("users", usersColumns)]).filter fun t => t.1 != "users") = s := by
    rw [List.filter_append, schema_filter_of_lookup_none s h]
    simp
  show downgrade (s ++ [("users", usersColumns)]) = .ok s
  simp only [downgrade, drop_table, hl, hfil]

/-- Witness for C7: from the empty schema, upgrade creates users and
downgrade then restores the empty schema. -/
theorem migration_roundtrip_witness :
    upgrade ([] : Schema) = .ok [("users", usersColumns)] ∧
    (upgrade ([] : Schema) >>= downgrade) = .ok [] :=
  migration_roundtrip [] rfl

/-- C8: dispose releases the handle's resources and disposing an
already-disposed handle changes nothing: dispose after dispose equals
dispose. -/
theorem dispose_idempotent (e : Engine) : dispose (dispose e) = dispose e := rfl

/-- Witness for C8: disposing a concrete active handle twice equals
disposing it once. -/
theorem dispose_idempotent_witness :
    dispose (dispose ⟨":memory:", [0], true⟩) = dispose ⟨":memory:", [0], true⟩ :=
  dispose_idempotent ⟨":memory:", [0], true⟩

/-- C9 counterexample: the claim includes the empty path among the falsy
arguments, but a Path object is always truthy in Python; for the empty
path the location is "." (a file), not the in-memory marker. -/
theorem empty_path_targets_file :
    db_loc (DbFile.pathArg "") = "." ∧
    db_loc (DbFile.pathArg "") ≠ ":memory:" ∧
    get_sqlite_engine_url (DbFile.pathArg "") ≠ "sqlite+aiosqlite:///:memory:" :=
  ⟨rfl, by decide, by decide⟩

/-- C9 amended: the fallback tests truthiness, so None and the empty
string both give the in-memory location; the empty path is truthy (its
text is ".") and gives the file location ".". -/
theorem falsy_dbfile_in_memory :
    db_loc DbFile.noneArg = ":memory:" ∧
    db_loc (DbFile.strArg "") = ":memory:" ∧
    db_loc (DbFile.pathArg "") = "." ∧
    get_sqlite_engine_url (DbFile.pathArg "") = "sqlite+aiosqlite:///." :=
  ⟨rfl, rfl, rfl, rfl⟩

/-- C10: the version parse is total exactly on version strings whose
dot-components are all nonempty digit runs; any string with a non-numeric
component raises ValueError in int() before the version comparison runs,
as version 2.0.0b1 shows — the raised error is the ValueError, never the
version error. -/
theorem version_parse_totality (s : String) (c : List Char) :
    ((∀ d ∈ splitOnDot s.data, intOk d = true) →
      parseVersion s = .ok ((splitOnDot s.data).map digitsToNat)) ∧
    (c ∈ splitOnDot s.data → intOk c = false →
      moduleInit s = .error PyErr.valueError) ∧
    moduleInit "2.0.0b1" = .error PyErr.valueError :=
  ⟨fun h => parseComponents_ok_of_all _ h,
   fun hc hbad =>
     moduleInit_err_of_parse_err s _ (parseComponents_err_of_bad _ c hc hbad),
   rfl⟩

/-- Witness for C10: the component 0b1 of 2.0.0b1 is not all digits and
the module raises ValueError there, and 2.0.23 parses in full. -/
theorem version_parse_totality_witness :
    moduleInit "2.0.0b1" = .error PyErr.valueError ∧
    parseVersion "2.0.23" = .ok [2, 0, 23] :=
  ⟨(version_parse_totality "2.0.0b1" ['0', 'b', '1']).2.1 (by decide) rfl,
   (version_parse_totality "2.0.23" []).1 (by decide)⟩

end SqlaIntro
